import Mathlib

/-!
Shallow embedding of the client-side authentication flow controller of
`src/app.tsx` (the `App` React component), together with its session
persistence in `localStorage`.  React `useState` hooks become fields of
`AppState`; each `useCallback` handler becomes a pure state transformer;
the `useEffect` with an empty dependency list, which runs once on mount,
becomes the function `initEffect` applied once to the freshly mounted
state; `localStorage` (two keys: user id and verification flag) becomes
the `SessionStore` record carried inside `AppState`; the state resets
performed inside `renderAuthFlow`'s guard branches become `renderGuard`.
Events delivered by the step-view cards are dispatched by `step`, which
wires each callback exactly to the states whose rendered card receives
it in `renderAuthFlow` (the sidebar's `onLogout` is rendered in every
state, and the document-analyzer callbacks only when authenticated);
an event whose callback is not wired in the current state is a no-op.
-/

/-- The `AuthFlowState` union type of `src/app.tsx`. -/
inductive AuthFlowState where
  | email_input
  | choose_method
  | register_with_password
  | login_with_password
  | request_otp
  | verify_otp
  | authenticated
deriving DecidableEq, Repr

/-- The shape of the identity record delivered by a successful
authentication call (`UserResponse`, which per the comment in
`src/app.tsx` now includes `is_verified`). -/
structure UserResponse where
  id : String
  email : String
  is_verified : Bool
deriving DecidableEq, Repr

/-- The two persisted `localStorage` entries: the value under
`LOCAL_STORAGE_USER_ID_KEY` and the value under
`LOCAL_STORAGE_USER_VERIFIED_KEY` (`none` models an absent key). -/
structure SessionStore where
  userId : Option String
  verified : Option String
deriving DecidableEq, Repr

/-- The `useState` hooks of the `App` component plus the session store. -/
structure AppState where
  currentUserId : Option String
  isUserVerified : Bool
  lastAnalyzedDocumentId : Option String
  appError : Option String
  currentAuthFlowState : AuthFlowState
  tempEmail : Option String
  store : SessionStore
deriving DecidableEq, Repr

/-- The initial `useState` values of a freshly mounted `App`
(`null`, `false`, `null`, `null`, `'email_input'`, `null`), over a
given persisted store. -/
def freshAppState (st : SessionStore) : AppState :=
  { currentUserId := none
    isUserVerified := false
    lastAnalyzedDocumentId := none
    appError := none
    currentAuthFlowState := .email_input
    tempEmail := none
    store := st }

/-- JavaScript `String(b)` on a boolean. -/
def stringOfBool (b : Bool) : String :=
  if b then "true" else "false"

/-- JavaScript truthiness of a nullable string (`localStorage.getItem`
results and the `tempEmail` hook): `if (x)` takes the then-branch exactly
when the value is neither `null` nor the empty string. -/
def isTruthy : Option String → Bool
  | none => false
  | some s => s != ""

/-- The mount-time `useEffect` of `App`: read both `localStorage` keys;
`if (storedUserId)` is a truthiness check, so only a present non-empty
stored id is adopted (with the verified bit computed by strict comparison
of the stored flag with `'true'`) before entering `authenticated`; a
missing or empty stored id falls to `email_input`. -/
def initEffect (s : AppState) : AppState :=
  if isTruthy s.store.userId then
    { s with
      currentUserId := s.store.userId
      isUserVerified := s.store.verified == some "true"
      currentAuthFlowState := .authenticated }
  else
    { s with currentAuthFlowState := .email_input }

/-- `handleLoginSuccess` of `src/app.tsx`: adopt the identity, persist
both keys (the flag as `String(is_verified)`), enter `authenticated`,
clear the error.  It inspects no current state. -/
def handleLoginSuccess (userData : UserResponse) (s : AppState) : AppState :=
  { s with
    currentUserId := some userData.id
    isUserVerified := userData.is_verified
    store := { userId := some userData.id
               verified := some (stringOfBool userData.is_verified) }
    currentAuthFlowState := .authenticated
    appError := none }

/-- `handleLogout` of `src/app.tsx`: clear the identity, remove both
persisted keys, clear the analyzed-document id, the error and the
carried email, and reset to `email_input`. -/
def handleLogout (s : AppState) : AppState :=
  { s with
    currentUserId := none
    isUserVerified := false
    store := { userId := none, verified := none }
    lastAnalyzedDocumentId := none
    appError := none
    tempEmail := none
    currentAuthFlowState := .email_input }

/-- `handleDocumentAnalyzed` of `src/app.tsx`. -/
def handleDocumentAnalyzed (documentId : String) (s : AppState) : AppState :=
  { s with lastAnalyzedDocumentId := some documentId, appError := none }

/-- `handleAnalysisError` of `src/app.tsx`: every error callback of the
flow (`onLoginError`, `onRequestError`, `onVerificationError`) is this
function; it only sets `appError`. -/
def handleAnalysisError (error : String) (s : AppState) : AppState :=
  { s with appError := some error }

/-- `handleEmailSubmitted` of `src/app.tsx`. -/
def handleEmailSubmitted (email : String) (s : AppState) : AppState :=
  { s with
    tempEmail := some email
    currentAuthFlowState := .choose_method
    appError := none }

/-- The state resets performed by `renderAuthFlow`: in each of the four
states `choose_method`, `login_with_password`, `request_otp`,
`verify_otp`, if `!tempEmail` then `setCurrentAuthFlowState('email_input')`
fires (and the card is not rendered); all other branches leave the state
untouched. -/
def renderGuard (s : AppState) : AppState :=
  match s.currentAuthFlowState with
  | .choose_method | .login_with_password | .request_otp | .verify_otp =>
      if isTruthy s.tempEmail then s
      else { s with currentAuthFlowState := .email_input }
  | _ => s

/-- The outcome events the rendered cards and the sidebar can report. -/
inductive Event where
  | emailSubmitted (email : String)
  | choosePassword
  | chooseOtp
  | back
  | loginSucceeded (u : UserResponse)
  | loginFailed (msg : String)
  | requestSucceeded
  | requestFailed (msg : String)
  | verificationSucceeded (u : UserResponse)
  | verificationFailed (msg : String)
  | logout
  | documentAnalyzed (documentId : String)
  | analysisError (msg : String)
  | renderCheck
deriving DecidableEq, Repr

/-- Event dispatch: apply the handler that `renderAuthFlow` wires to the
card rendered in the current state (plus the always-rendered sidebar's
`onLogout`, the document-analyzer callbacks in `authenticated`, and
`renderCheck` for a render of the current state).  An event whose
callback is not wired in the current state is a no-op. -/
def step (s : AppState) (e : Event) : AppState :=
  match s.currentAuthFlowState, e with
  | _, .logout => handleLogout s
  | _, .renderCheck => renderGuard s
  | .email_input, .emailSubmitted em => handleEmailSubmitted em s
  | .email_input, .loginFailed msg => handleAnalysisError msg s
  | .choose_method, .choosePassword =>
      { s with currentAuthFlowState := .login_with_password }
  | .choose_method, .chooseOtp =>
      { s with currentAuthFlowState := .request_otp }
  | .choose_method, .back =>
      { s with currentAuthFlowState := .email_input }
  | .choose_method, .loginSucceeded u => handleLoginSuccess u s
  | .choose_method, .loginFailed msg => handleAnalysisError msg s
  | .login_with_password, .loginSucceeded u => handleLoginSuccess u s
  | .login_with_password, .loginFailed msg => handleAnalysisError msg s
  | .login_with_password, .back =>
      { s with currentAuthFlowState := .choose_method }
  | .request_otp, .requestSucceeded =>
      { s with currentAuthFlowState := .verify_otp }
  | .request_otp, .requestFailed msg => handleAnalysisError msg s
  | .request_otp, .back =>
      { s with currentAuthFlowState := .choose_method }
  | .verify_otp, .verificationSucceeded u => handleLoginSuccess u s
  | .verify_otp, .verificationFailed msg => handleAnalysisError msg s
  | .verify_otp, .back =>
      { s with currentAuthFlowState := .request_otp }
  | .authenticated, .documentAnalyzed d => handleDocumentAnalyzed d s
  | .authenticated, .analysisError msg => handleAnalysisError msg s
  | _, _ => s

/-- Run a sequence of events. -/
def run (s : AppState) : List Event → AppState
  | [] => s
  | e :: es => run (step s e) es

/-- All states visited while running a sequence of events, the starting
state included. -/
def runStates (s : AppState) : List Event → List AppState
  | [] => [s]
  | e :: es => s :: runStates (step s e) es


/-- C3: Initialization is deterministic: over the mount-time state, a
single application of the mount effect leaves the error `none`, lands in
`authenticated` with exactly the stored user id when the program's own
presence check `if (storedUserId)` finds a persisted identity (a truthy,
i.e. non-empty, stored id), and lands in `email_input` with a null id
otherwise (key absent, or present but empty and hence treated as holding
nothing). -/
theorem init_deterministic (st : SessionStore) :
    (initEffect (freshAppState st)).appError = none ∧
    (initEffect (freshAppState st)).currentAuthFlowState =
      (if isTruthy st.userId then .authenticated else .email_input) ∧
    (initEffect (freshAppState st)).currentUserId =
      (if isTruthy st.userId then st.userId else none) := by
  obtain ⟨uid, ver⟩ := st
  by_cases hc : isTruthy uid <;>
    simp [initEffect, freshAppState, hc]

/-- C4: From `authenticated` with a non-null identity, the `Logout` event
resets the flow to `email_input` and clears the identity, the carried
email, the error, the document-analysis context and both persisted keys. -/
theorem logout_clears (s : AppState)
    (h1 : s.currentAuthFlowState = .authenticated)
    (h2 : s.currentUserId ≠ none) :
    (step s .logout).currentAuthFlowState = .email_input ∧
    (step s .logout).currentUserId = none ∧
    (step s .logout).isUserVerified = false ∧
    (step s .logout).tempEmail = none ∧
    (step s .logout).appError = none ∧
    (step s .logout).lastAnalyzedDocumentId = none ∧
    (step s .logout).store.userId = none ∧
    (step s .logout).store.verified = none := by
  obtain ⟨cu, iv, la, ae, fs, te, st0⟩ := s
  simp only at h1
  subst h1
  simp [step, handleLogout]

/-- Witness for `logout_clears` at a concrete authenticated state. -/
theorem logout_clears_witness :
    (step ⟨some "u1", true, some "d1", some "err", .authenticated,
           some "a@b.com", ⟨some "u1", some "true"⟩⟩ .logout).currentAuthFlowState
      = .email_input ∧
    (step ⟨some "u1", true, some "d1", some "err", .authenticated,
           some "a@b.com", ⟨some "u1", some "true"⟩⟩ .logout).currentUserId = none ∧
    (step ⟨some "u1", true, some "d1", some "err", .authenticated,
           some "a@b.com", ⟨some "u1", some "true"⟩⟩ .logout).isUserVerified = false ∧
    (step ⟨some "u1", true, some "d1", some "err", .authenticated,
           some "a@b.com", ⟨some "u1", some "true"⟩⟩ .logout).tempEmail = none ∧
    (step ⟨some "u1", true, some "d1", some "err", .authenticated,
           some "a@b.com", ⟨some "u1", some "true"⟩⟩ .logout).appError = none ∧
    (step ⟨some "u1", true, some "d1", some "err", .authenticated,
           some "a@b.com", ⟨some "u1", some "true"⟩⟩ .logout).lastAnalyzedDocumentId = none ∧
    (step ⟨some "u1", true, some "d1", some "err", .authenticated,
           some "a@b.com", ⟨some "u1", some "true"⟩⟩ .logout).store.userId = none ∧
    (step ⟨some "u1", true, some "d1", some "err", .authenticated,
           some "a@b.com", ⟨some "u1", some "true"⟩⟩ .logout).store.verified = none :=
  logout_clears _ (by decide) (by decide)

/-- C5: In any of the four states whose card carries the email, a render
with `tempEmail = none` resets the flow to `email_input` while changing
no other field (in particular the error is not set by this recovery). -/
theorem guard_recovery (s : AppState)
    (h1 : s.currentAuthFlowState = .choose_method ∨
          s.currentAuthFlowState = .login_with_password ∨
          s.currentAuthFlowState = .request_otp ∨
          s.currentAuthFlowState = .verify_otp)
    (h2 : s.tempEmail = none) :
    (renderGuard s).currentAuthFlowState = .email_input ∧
    (renderGuard s).appError = s.appError ∧
    (renderGuard s).tempEmail = s.tempEmail ∧
    (renderGuard s).currentUserId = s.currentUserId ∧
    (renderGuard s).store = s.store := by
  rcases h1 with h | h | h | h <;>
    simp [renderGuard, h, isTruthy, h2]

/-- Witness for `guard_recovery` at a concrete state. -/
theorem guard_recovery_witness :
    (renderGuard ⟨none, false, none, some "old", .request_otp, none,
                  ⟨none, none⟩⟩).currentAuthFlowState = .email_input ∧
    (renderGuard ⟨none, false, none, some "old", .request_otp, none,
                  ⟨none, none⟩⟩).appError = some "old" ∧
    (renderGuard ⟨none, false, none, some "old", .request_otp, none,
                  ⟨none, none⟩⟩).tempEmail = none ∧
    (renderGuard ⟨none, false, none, some "old", .request_otp, none,
                  ⟨none, none⟩⟩).currentUserId = none ∧
    (renderGuard ⟨none, false, none, some "old", .request_otp, none,
                  ⟨none, none⟩⟩).store = ⟨none, none⟩ :=
  guard_recovery _ (by decide) (by decide)

/-- The pairing of each `*Failed(msg)` event with the state whose card
reports it. -/
def failedEventFor (fs : AuthFlowState) (e : Event) (msg : String) : Prop :=
  (fs = .login_with_password ∧ e = .loginFailed msg) ∨
  (fs = .request_otp ∧ e = .requestFailed msg) ∨
  (fs = .verify_otp ∧ e = .verificationFailed msg)

/-- C7: Each `*Failed(msg)` event in its corresponding state leaves the
flow state, the carried email and the identity unchanged and sets the
error to exactly `msg` (forwarded verbatim). -/
theorem failed_keeps_step (s : AppState) (e : Event) (msg : String)
    (h : failedEventFor s.currentAuthFlowState e msg) :
    (step s e).currentAuthFlowState = s.currentAuthFlowState ∧
    (step s e).tempEmail = s.tempEmail ∧
    (step s e).currentUserId = s.currentUserId ∧
    (step s e).appError = some msg := by
  rcases h with ⟨h1, h2⟩ | ⟨h1, h2⟩ | ⟨h1, h2⟩ <;> subst h2 <;>
    simp [step, h1, handleAnalysisError]

/-- Witness for `failed_keeps_step`: `LoginFailed "bad password"` in
`login_with_password` with carried email `"x@y.com"`. -/
theorem failed_keeps_step_witness :
    (step ⟨none, false, none, none, .login_with_password, some "x@y.com",
           ⟨none, none⟩⟩ (.loginFailed "bad password")).currentAuthFlowState
      = .login_with_password ∧
    (step ⟨none, false, none, none, .login_with_password, some "x@y.com",
           ⟨none, none⟩⟩ (.loginFailed "bad password")).tempEmail = some "x@y.com" ∧
    (step ⟨none, false, none, none, .login_with_password, some "x@y.com",
           ⟨none, none⟩⟩ (.loginFailed "bad password")).currentUserId = none ∧
    (step ⟨none, false, none, none, .login_with_password, some "x@y.com",
           ⟨none, none⟩⟩ (.loginFailed "bad password")).appError = some "bad password" :=
  failed_keeps_step _ _ "bad password" (Or.inl ⟨rfl, rfl⟩)

/-- C8 counterexample: the round trip fails for the identity whose id is
the empty string: saving it stores both keys, but the next mount's
`if (storedUserId)` truthiness check treats the stored empty id like an
absent one, so the load falls to the else branch and recovers neither the
saved id nor the saved verified bit. -/
theorem empty_id_breaks_roundtrip :
    (handleLoginSuccess ⟨"", "a@b.com", true⟩
      (freshAppState ⟨none, none⟩)).store.userId = some "" ∧
    (handleLoginSuccess ⟨"", "a@b.com", true⟩
      (freshAppState ⟨none, none⟩)).store.verified = some "true" ∧
    (initEffect (freshAppState (handleLoginSuccess ⟨"", "a@b.com", true⟩
      (freshAppState ⟨none, none⟩)).store)).currentUserId = none ∧
    (initEffect (freshAppState (handleLoginSuccess ⟨"", "a@b.com", true⟩
      (freshAppState ⟨none, none⟩)).store)).isUserVerified = false ∧
    (initEffect (freshAppState (handleLoginSuccess ⟨"", "a@b.com", true⟩
      (freshAppState ⟨none, none⟩)).store)).currentAuthFlowState = .email_input ∧
    (none : Option String) ≠ some "" ∧ (false : Bool) ≠ true := by
  decide

/-- C8 amended: for every identity with a non-empty id, saving stores the
verification flag as the string `"true"` or `"false"` and loading the
stored pair back recovers the saved id and the saved boolean; an identity
with an empty id is saved but not recovered (the truthiness check treats
it as absent); and when the identifier key is absent the mount effect
leaves the verified bit `false` regardless of the flag key's value. -/
theorem session_roundtrip (u : UserResponse) (s : AppState) (st : SessionStore)
    (hu : u.id ≠ "")
    (h : st.userId = none) :
    (handleLoginSuccess u s).store.verified = some (stringOfBool u.is_verified) ∧
    (stringOfBool u.is_verified = "true" ∨ stringOfBool u.is_verified = "false") ∧
    (initEffect (freshAppState (handleLoginSuccess u s).store)).currentUserId
      = some u.id ∧
    (initEffect (freshAppState (handleLoginSuccess u s).store)).isUserVerified
      = u.is_verified ∧
    (initEffect (freshAppState st)).isUserVerified = false := by
  obtain ⟨uid, ver⟩ := st
  simp only at h
  subst h
  cases hv : u.is_verified <;>
    simp [handleLoginSuccess, initEffect, freshAppState, stringOfBool,
      isTruthy, hv, hu]

/-- Witness for `session_roundtrip` at a concrete identity with a
non-empty id and an absent identifier key with corrupt flag data. -/
theorem session_roundtrip_witness :
    (handleLoginSuccess ⟨"u1", "a@b.com", true⟩
        (freshAppState ⟨none, none⟩)).store.verified
      = some (stringOfBool true) ∧
    (stringOfBool true = "true" ∨ stringOfBool true = "false") ∧
    (initEffect (freshAppState (handleLoginSuccess ⟨"u1", "a@b.com", true⟩
        (freshAppState ⟨none, none⟩)).store)).currentUserId = some "u1" ∧
    (initEffect (freshAppState (handleLoginSuccess ⟨"u1", "a@b.com", true⟩
        (freshAppState ⟨none, none⟩)).store)).isUserVerified = true ∧
    (initEffect (freshAppState ⟨none, some "true"⟩)).isUserVerified = false :=
  session_roundtrip ⟨"u1", "a@b.com", true⟩ _ ⟨none, some "true"⟩ (by decide) rfl

/-- C10 counterexample: with the identifier key present but holding the
empty string and the flag exactly `"true"`, the truthiness check skips
the flag parse entirely and the verified bit stays `false`, refuting the
claimed equivalence for every present id. -/
theorem empty_id_skips_flag_parse :
    (freshAppState ⟨some "", some "true"⟩).store.userId = some "" ∧
    (initEffect (freshAppState ⟨some "", some "true"⟩)).isUserVerified = false ∧
    (initEffect (freshAppState ⟨some "", some "true"⟩)).currentAuthFlowState
      = .email_input ∧
    ¬(((initEffect (freshAppState ⟨some "", some "true"⟩)).isUserVerified = true) ↔
      ((some "true" : Option String) = some "true")) := by
  decide

/-- C10 amended: when the identifier key is present with a non-empty
value, the verified bit after the mount effect is `true` exactly when the
stored flag is the exact string `"true"` (every other stored value yields
`false`); a present-but-empty identifier falls to the else branch and
leaves the verified bit `false` even when the flag is `"true"`. -/
theorem strict_verified_parsing (st : SessionStore) (id : String)
    (h : st.userId = some id) (hid : id ≠ "") :
    ((initEffect (freshAppState st)).isUserVerified = true ↔
      st.verified = some "true") := by
  obtain ⟨uid, ver⟩ := st
  simp only at h
  subst h
  simp [initEffect, freshAppState, isTruthy, hid]

/-- Witness for `strict_verified_parsing` at a non-empty stored id and
the stored flag `"TRUE"`, which must not grant verified status. -/
theorem strict_verified_parsing_witness :
    ((initEffect (freshAppState ⟨some "u1", some "TRUE"⟩)).isUserVerified = true ↔
      (some "TRUE" : Option String) = some "true") :=
  strict_verified_parsing ⟨some "u1", some "TRUE"⟩ "u1" rfl (by decide)

/-- C1 counterexample: run `EmailSubmitted "a@b.com"`, `ChoosePassword`,
then `Back` (the Back arriving while the password-login request is in
flight), landing in `choose_method`; the late `handleLoginSuccess` of the
abandoned attempt is the same unconditional function and moves the flow
to `authenticated`, so the stale callback does change the current flow
state. -/
theorem stale_login_success_not_ignored :
    (run (freshAppState ⟨none, none⟩)
      [.emailSubmitted "a@b.com", .choosePassword, .back]).currentAuthFlowState
      = .choose_method ∧
    (handleLoginSuccess ⟨"u1", "a@b.com", true⟩
      (run (freshAppState ⟨none, none⟩)
        [.emailSubmitted "a@b.com", .choosePassword, .back])).currentAuthFlowState
      = .authenticated ∧
    AuthFlowState.authenticated ≠ .choose_method := by
  decide

/-- C1 amended: after any Back, a stale `*Failed(msg)` callback leaves the
flow state and the carried email unchanged (it only sets the error), but a
stale `LoginSucceeded`/`VerificationSucceeded` callback is not ignored:
`handleLoginSuccess` applied in any state moves the flow to
`authenticated` and persists the identity. -/
theorem stale_callback_effects (s : AppState) (u : UserResponse) (msg : String) :
    (handleAnalysisError msg s).currentAuthFlowState = s.currentAuthFlowState ∧
    (handleAnalysisError msg s).tempEmail = s.tempEmail ∧
    (handleAnalysisError msg s).appError = some msg ∧
    (handleLoginSuccess u s).currentAuthFlowState = .authenticated ∧
    (handleLoginSuccess u s).store.userId = some u.id := by
  simp [handleAnalysisError, handleLoginSuccess]

/-- C2 counterexample: reach `request_otp` with the error `"boom"` (via a
failed OTP request) and fire `RequestSucceeded`: the flow moves to
`verify_otp` but the error is still `"boom"`, not `null`. -/
theorem request_succeeded_keeps_error :
    (step (run (freshAppState ⟨none, none⟩)
        [.emailSubmitted "a@b.com", .chooseOtp, .requestFailed "boom"])
      .requestSucceeded).currentAuthFlowState = .verify_otp ∧
    (step (run (freshAppState ⟨none, none⟩)
        [.emailSubmitted "a@b.com", .chooseOtp, .requestFailed "boom"])
      .requestSucceeded).appError = some "boom" ∧
    some "boom" ≠ (none : Option String) := by
  decide

/-- C2 amended: from any state with a non-null error, the `EmailSubmitted`
success path and the identity-carrying success handler (`LoginSucceeded`
and `VerificationSucceeded` are both `handleLoginSuccess`) clear the
error, but `request_otp`'s `RequestSucceeded` only moves the flow to
`verify_otp` and leaves the error unchanged. -/
theorem succeeded_events_and_error (s : AppState) (em : String) (u : UserResponse)
    (h : s.appError ≠ none) :
    (handleEmailSubmitted em s).appError = none ∧
    (handleLoginSuccess u s).appError = none ∧
    (s.currentAuthFlowState = .request_otp →
      (step s .requestSucceeded).currentAuthFlowState = .verify_otp ∧
      (step s .requestSucceeded).appError = s.appError) := by
  refine ⟨rfl, rfl, fun hfs => ?_⟩
  simp [step, hfs]

/-- Witness for `succeeded_events_and_error` at a `request_otp` state
carrying the error `"boom"`. -/
theorem succeeded_events_and_error_witness :
    (handleEmailSubmitted "a@b.com"
      ⟨none, false, none, some "boom", .request_otp, some "a@b.com",
       ⟨none, none⟩⟩).appError = none ∧
    (handleLoginSuccess ⟨"u1", "a@b.com", true⟩
      ⟨none, false, none, some "boom", .request_otp, some "a@b.com",
       ⟨none, none⟩⟩).appError = none ∧
    ((⟨none, false, none, some "boom", .request_otp, some "a@b.com",
       ⟨none, none⟩⟩ : AppState).currentAuthFlowState = .request_otp →
      (step ⟨none, false, none, some "boom", .request_otp, some "a@b.com",
             ⟨none, none⟩⟩ .requestSucceeded).currentAuthFlowState = .verify_otp ∧
      (step ⟨none, false, none, some "boom", .request_otp, some "a@b.com",
             ⟨none, none⟩⟩ .requestSucceeded).appError = some "boom") :=
  succeeded_events_and_error _ "a@b.com" ⟨"u1", "a@b.com", true⟩ (by decide)

/-- C9: Submitting the empty string from `email_input` moves to
`choose_method` with `tempEmail = some ""`, and the very next render's
guard treats the empty string like a missing email and resets the flow to
`email_input`; moreover no render of the four email-carrying states
survives with an empty carried email. -/
theorem empty_email_resets (s : AppState)
    (h : s.currentAuthFlowState = .email_input) :
    (step s (.emailSubmitted "")).currentAuthFlowState = .choose_method ∧
    (step s (.emailSubmitted "")).tempEmail = some "" ∧
    (renderGuard (step s (.emailSubmitted ""))).currentAuthFlowState
      = .email_input ∧
    (∀ t : AppState, t.tempEmail = some "" →
      (renderGuard t).currentAuthFlowState ≠ .choose_method ∧
      (renderGuard t).currentAuthFlowState ≠ .login_with_password ∧
      (renderGuard t).currentAuthFlowState ≠ .request_otp ∧
      (renderGuard t).currentAuthFlowState ≠ .verify_otp) := by
  refine ⟨?_, ?_, ?_, ?_⟩
  · simp [step, h, handleEmailSubmitted]
  · simp [step, h, handleEmailSubmitted]
  · simp [step, h, handleEmailSubmitted, renderGuard, isTruthy]
  · intro t ht
    obtain ⟨cu, iv, la, ae, fs, te, st0⟩ := t
    simp only at ht
    subst ht
    cases fs <;> simp [renderGuard, isTruthy]

/-- Witness for `empty_email_resets` at the freshly mounted state. -/
theorem empty_email_resets_witness :
    (step (freshAppState ⟨none, none⟩) (.emailSubmitted "")).currentAuthFlowState
      = .choose_method ∧
    (step (freshAppState ⟨none, none⟩) (.emailSubmitted "")).tempEmail = some "" ∧
    (renderGuard (step (freshAppState ⟨none, none⟩)
        (.emailSubmitted ""))).currentAuthFlowState = .email_input :=
  ⟨(empty_email_resets (freshAppState ⟨none, none⟩) rfl).1,
   (empty_email_resets (freshAppState ⟨none, none⟩) rfl).2.1,
   (empty_email_resets (freshAppState ⟨none, none⟩) rfl).2.2.1⟩

/-- The render guard never touches the carried email. -/
theorem renderGuard_tempEmail (s : AppState) :
    (renderGuard s).tempEmail = s.tempEmail := by
  obtain ⟨cu, iv, la, ae, fs, te, st0⟩ := s
  cases fs <;> simp [renderGuard] <;> split <;> rfl

/-- Outside `email_input`, no wired event other than `Logout` changes the
carried email: `EmailSubmitted` is only wired in `email_input`, and every
other handler leaves `tempEmail` alone. -/
theorem step_preserves_tempEmail (s : AppState) (e : Event) (em : String)
    (hfs : s.currentAuthFlowState ≠ .email_input)
    (he : e ≠ .logout)
    (ht : s.tempEmail = some em) :
    (step s e).tempEmail = some em := by
  obtain ⟨cu, iv, la, ae, fs, te, st0⟩ := s
  simp only at hfs ht
  subst ht
  cases fs <;> cases e <;>
    simp_all [step, handleLoginSuccess, handleAnalysisError,
      handleDocumentAnalyzed, handleEmailSubmitted, handleLogout,
      renderGuard_tempEmail]

/-- Running any event sequence that contains no `Logout` and never visits
`email_input` preserves the carried email at every visited state. -/
theorem run_preserves_tempEmail (em : String) :
    ∀ (evs : List Event) (s : AppState),
      s.tempEmail = some em →
      Event.logout ∉ evs →
      (∀ t ∈ runStates s evs, t.currentAuthFlowState ≠ .email_input) →
      ∀ t ∈ runStates s evs, t.tempEmail = some em := by
  intro evs
  induction evs with
  | nil =>
      intro s ht _ _ t htm
      simp only [runStates, List.mem_singleton] at htm
      subst htm
      exact ht
  | cons e es ih =>
      intro s ht hl hb t htm
      have hne : e ≠ Event.logout := by
        intro hcontra
        exact hl (by simp [hcontra])
      have hl2 : Event.logout ∉ es := fun hm => hl (List.mem_cons_of_mem _ hm)
      have hs0 : s.currentAuthFlowState ≠ .email_input :=
        hb s (by simp [runStates])
      have ht2 : (step s e).tempEmail = some em :=
        step_preserves_tempEmail s e em hs0 hne ht
      have hb2 : ∀ u ∈ runStates (step s e) es,
          u.currentAuthFlowState ≠ .email_input := by
        intro u hu
        exact hb u (by simp [runStates, hu])
      simp only [runStates, List.mem_cons] at htm
      rcases htm with rfl | htm
      · exact ht
      · exact ih (step s e) ht2 hl2 hb2 t htm

/-- C6: Starting from `email_input` with `EmailSubmitted em`, the carried
email equals `em` in every subsequently visited state, as long as no
`Logout` occurs and no visited state returns to `email_input` (a Back to
`email_input` ends the guarantee); in particular no intermediate
transition modifies `tempEmail`. -/
theorem email_threading (s : AppState) (em : String) (evs : List Event)
    (h0 : s.currentAuthFlowState = .email_input)
    (hl : Event.logout ∉ evs)
    (hb : ∀ t ∈ runStates (step s (.emailSubmitted em)) evs,
          t.currentAuthFlowState ≠ AuthFlowState.email_input) :
    ∀ t ∈ runStates (step s (.emailSubmitted em)) evs,
      t.tempEmail = some em := by
  have h1 : (step s (.emailSubmitted em)).tempEmail = some em := by
    simp [step, h0, handleEmailSubmitted]
  exact run_preserves_tempEmail em evs (step s (.emailSubmitted em)) h1 hl hb

/-- Witness for `email_threading`: submit `"a@b.com"`, choose password
login, fail once, go Back to `choose_method`; the carried email is
`"a@b.com"` at the end. -/
theorem email_threading_witness :
    (run (step (freshAppState ⟨none, none⟩) (.emailSubmitted "a@b.com"))
      [.choosePassword, .loginFailed "bad", .back]).tempEmail
      = some "a@b.com" :=
  email_threading (freshAppState ⟨none, none⟩) "a@b.com"
    [.choosePassword, .loginFailed "bad", .back]
    rfl (by decide) (by decide)
    (run (step (freshAppState ⟨none, none⟩) (.emailSubmitted "a@b.com"))
      [.choosePassword, .loginFailed "bad", .back])
    (by decide)
